import Mathlib

/-!
Verification of the SQLiteCpp `Backup` driver (src/include/SQLiteCpp/Backup.h)
against its natural-language specification.

The repository ships the class declaration in `Backup.h`; the member bodies
(`Backup.cpp`) and the storage engine itself are external to `src/`, so they
are modelled from the specification (each such definition carries a
`Modelled from the spec:` doc comment).  The engine's hot-backup entry points
are `initialize`, `step`, `remaining`, `pagecount`, `finalize`; transient
contention and fatal I/O outcomes of a step are environmental, so the step
entry point is parameterised by a `StepEnv` describing what the engine
encountered during that call.
-/

namespace SQLiteCpp

/-- Engine status codes, as declared by sqlite3.h (included by Backup.h). -/
def SQLITE_OK : Int := 0

/-- Engine status code SQLITE_BUSY. -/
def SQLITE_BUSY : Int := 5

/-- Engine status code SQLITE_LOCKED. -/
def SQLITE_LOCKED : Int := 6

/-- Engine status code SQLITE_NOMEM (out of memory). -/
def SQLITE_NOMEM : Int := 7

/-- Engine status code SQLITE_READONLY. -/
def SQLITE_READONLY : Int := 8

/-- Engine status code SQLITE_IOERR (disk I/O error). -/
def SQLITE_IOERR : Int := 10

/-- Engine status code SQLITE_MISUSE. -/
def SQLITE_MISUSE : Int := 21

/-- Engine status code SQLITE_DONE. -/
def SQLITE_DONE : Int := 101

/-- Modelled from the spec: the engine-side state reachable through one
`sqlite3_backup*` handle.  `id` is the pointer value itself (opaque token),
`total` the source page count and `remaining` the pages still to copy.
Missing from src: the engine's internal backup object. -/
structure BackupHandle where
  id : Nat
  total : Nat
  remaining : Nat
deriving DecidableEq, Repr

/-- Modelled from the spec: the destination or source connection collaborator
(`SQLite::Database`, external to this component).  The Driver consumes only
the borrowed engine connection handle and the connection's last-error fields.
Missing from src: Database.h / the sqlite3 connection object. -/
structure Database where
  handle : Nat
  errcode : Int
  errmsg : String
deriving DecidableEq, Repr

/-- Borrowed accessor yielding the engine's opaque connection handle. -/
def Database.getHandle (d : Database) : Nat := d.handle

/-- The structured error raised by this layer: it carries an engine error
code and message (SQLite::Exception). -/
structure Exception where
  code : Int
  msg : String
deriving DecidableEq, Repr

/-- Modelled from the spec: the engine's `initialize` entry point
(`sqlite3_backup_init`), abstracted as an oracle from the four inputs
(dest handle, dest schema, src handle, src schema) to either `none` (null
backup handle, the engine recorded the failure on the destination
connection) or `some (p, t)`: a fresh non-null handle with pointer value
`p` over a source schema of `t` pages.  Missing from src: the engine. -/
structure Engine where
  backup_init : Nat → String → Nat → String → Option (Nat × Nat)

/-- Environment of one call to the engine's step entry point: quiescent
progress, transient contention (busy / locked), or a fatal condition whose
engine code and message the engine records on the destination connection. -/
inductive StepEnv where
  | quiet : StepEnv
  | busy : StepEnv
  | locked : StepEnv
  | fatal : Int → String → StepEnv
deriving DecidableEq, Repr

/-- Modelled from the spec: the engine's `step` entry point
(`sqlite3_backup_step`).  Under a quiescent source it copies all remaining
pages when `n` is negative, otherwise up to `n` pages, and returns done when
no pages remain afterwards, ok otherwise.  Under contention it copies
nothing and reports busy / locked; under a fatal condition it reports the
fatal code and leaves the handle state unchanged.
Missing from src: the engine. -/
def sqlite3_backup_step (h : BackupHandle) (n : Int) : StepEnv → BackupHandle × Int
  | StepEnv.quiet =>
      let copied := if n < 0 then h.remaining else min n.toNat h.remaining
      let rem := h.remaining - copied
      ({ h with remaining := rem }, if rem = 0 then SQLITE_DONE else SQLITE_OK)
  | StepEnv.busy => (h, SQLITE_BUSY)
  | StepEnv.locked => (h, SQLITE_LOCKED)
  | StepEnv.fatal c _ => (h, c)

/-- Modelled from the spec: the engine's `remaining` entry point
(`sqlite3_backup_remaining`).  A freshly initialized handle reports the
whole source page count as remaining. -/
def sqlite3_backup_remaining (h : BackupHandle) : Int := (h.remaining : Int)

/-- Modelled from the spec: the engine's `pagecount` entry point
(`sqlite3_backup_pagecount`). -/
def sqlite3_backup_pagecount (h : BackupHandle) : Int := (h.total : Int)

/-- Modelled from the spec: the destination connection's last-error fields
as observed right after a step: the engine records a fatal step failure
there; otherwise the fields are whatever they were before. -/
def destLastError (dest : Database) : StepEnv → Int × String
  | StepEnv.fatal c m => (c, m)
  | _ => (dest.errcode, dest.errmsg)

/-- The Backup driver: its only state is the opaque backup handle
`mpSQLiteBackup` (a pointer, hence possibly null; construction only ever
exposes a live one). -/
structure Backup where
  mpSQLiteBackup : Option BackupHandle
deriving DecidableEq, Repr

/-- Modelled from the spec: the four-argument constructor
`Backup(Database&, const char*, Database&, const char*)` (body in the
missing Backup.cpp).  It requests a backup handle from the engine for
(dest handle, dest schema, src handle, src schema); a null handle fails
construction with an error read from the destination connection's
last-error fields and no Backup is observable; otherwise the handle is
stored. -/
def Backup.init (e : Engine) (aDestDatabase : Database) (apDestDatabaseName : String)
    (aSrcDatabase : Database) (apSrcDatabaseName : String) : Except Exception Backup :=
  match e.backup_init aDestDatabase.getHandle apDestDatabaseName
      aSrcDatabase.getHandle apSrcDatabaseName with
  | none => Except.error ⟨aDestDatabase.errcode, aDestDatabase.errmsg⟩
  | some (p, t) => Except.ok ⟨some ⟨p, t, t⟩⟩

/-- Modelled from the spec: the `std::string` constructor form
`Backup(Database&, const std::string&, Database&, const std::string&)`;
it follows the same initialization protocol with the owned textual
values. -/
def Backup.initString (e : Engine) (aDestDatabase : Database) (aDestDatabaseName : String)
    (aSrcDatabase : Database) (aSrcDatabaseName : String) : Except Exception Backup :=
  match e.backup_init aDestDatabase.getHandle aDestDatabaseName
      aSrcDatabase.getHandle aSrcDatabaseName with
  | none => Except.error ⟨aDestDatabase.errcode, aDestDatabase.errmsg⟩
  | some (p, t) => Except.ok ⟨some ⟨p, t, t⟩⟩

/-- Modelled from the spec: the two-argument constructor
`Backup(Database&, Database&)`, which backs up the main databases: it runs
the same initialization protocol with both schema names set to the literal
"main". -/
def Backup.initMain (e : Engine) (aDestDatabase : Database)
    (aSrcDatabase : Database) : Except Exception Backup :=
  match e.backup_init aDestDatabase.getHandle "main"
      aSrcDatabase.getHandle "main" with
  | none => Except.error ⟨aDestDatabase.errcode, aDestDatabase.errmsg⟩
  | some (p, t) => Except.ok ⟨some ⟨p, t, t⟩⟩

/-- Modelled from the spec: `int Backup::executeStep(const int aNumPage = -1)`
(declared at Backup.h:118; body in the missing Backup.cpp).  It invokes the
engine's step entry point with the stored handle and `aNumPage`; ok, done,
busy and locked are returned to the caller unchanged; any other code raises
a structured error carrying the engine code and message read from the
destination connection.  The handle is never released or nulled here.
A null stored handle is outside the live state (unreachable from a
successful construction) and is modelled as an engine-misuse error. -/
def Backup.executeStep (b : Backup) (dest : Database) (env : StepEnv)
    (aNumPage : Int := -1) : Backup × Except Exception Int :=
  match b.mpSQLiteBackup with
  | none => (b, Except.error ⟨SQLITE_MISUSE, "null backup handle"⟩)
  | some h =>
      let res := sqlite3_backup_step h aNumPage env
      if res.2 = SQLITE_OK ∨ res.2 = SQLITE_DONE ∨ res.2 = SQLITE_BUSY ∨
          res.2 = SQLITE_LOCKED then
        (⟨some res.1⟩, Except.ok res.2)
      else
        (⟨some res.1⟩, Except.error ⟨(destLastError dest env).1, (destLastError dest env).2⟩)

/-- Modelled from the spec: `int Backup::remainingPageCount()` (declared at
Backup.h:125; body in the missing Backup.cpp), a pure read of the engine's
remaining counter through the stored handle. -/
def Backup.remainingPageCount (b : Backup) : Int :=
  match b.mpSQLiteBackup with
  | none => 0
  | some h => sqlite3_backup_remaining h

/-- Modelled from the spec: `int Backup::totalPageCount()` (declared at
Backup.h:132; body in the missing Backup.cpp), a pure read of the engine's
pagecount through the stored handle. -/
def Backup.totalPageCount (b : Backup) : Int :=
  match b.mpSQLiteBackup with
  | none => 0
  | some h => sqlite3_backup_pagecount h

/-- Declared inline at Backup.h:141-144: `getHandle` returns the raw stored
pointer `mpSQLiteBackup`, ownership unchanged. -/
def Backup.getHandle (b : Backup) : Option BackupHandle := b.mpSQLiteBackup

/-- Observable outcome of running the destructor: which handle was passed
to the engine's finalize entry point, and whether anything was raised. -/
structure DestructOutcome where
  finalizedHandle : Option BackupHandle
  raised : Option Exception
deriving DecidableEq, Repr

/-- Modelled from the spec: `~Backup()` (declared noexcept at Backup.h:103;
body in the missing Backup.cpp).  On every exit path it passes the stored
handle to the engine's finalize entry point; `finalizeRet`, the return code
of that call, is intentionally discarded and nothing is ever raised. -/
def Backup.destruct (b : Backup) (finalizeRet : Int) : DestructOutcome :=
  { finalizedHandle := b.mpSQLiteBackup, raised := none }

/-- Folding a sequence of `executeStep` calls (keeping only the driver
state), used to express properties of step sequences. -/
def Backup.stepSeq (b : Backup) (dest : Database) (ks : List Int) : Backup :=
  ks.foldl (fun acc k => (acc.executeStep dest StepEnv.quiet k).1) b

/-- Remaining pages as a natural number (proof-layer view of the
remaining counter; zero for the unreachable null state). -/
def Backup.remNat (b : Backup) : Nat :=
  match b.mpSQLiteBackup with
  | none => 0
  | some h => h.remaining

theorem remainingPageCount_eq_remNat (b : Backup) :
    b.remainingPageCount = (b.remNat : Int) := by
  cases hb : b.mpSQLiteBackup <;>
    simp [Backup.remainingPageCount, Backup.remNat, sqlite3_backup_remaining, hb]

/-- Characterisation of `executeStep` on a live handle: the engine steps,
then the result code is classified. -/
theorem executeStep_eq (b : Backup) (dest : Database) (env : StepEnv) (n : Int)
    (h : BackupHandle) (hb : b.mpSQLiteBackup = some h) :
    b.executeStep dest env n =
      if (sqlite3_backup_step h n env).2 = SQLITE_OK ∨
          (sqlite3_backup_step h n env).2 = SQLITE_DONE ∨
          (sqlite3_backup_step h n env).2 = SQLITE_BUSY ∨
          (sqlite3_backup_step h n env).2 = SQLITE_LOCKED then
        (⟨some (sqlite3_backup_step h n env).1⟩,
          Except.ok (sqlite3_backup_step h n env).2)
      else
        (⟨some (sqlite3_backup_step h n env).1⟩,
          Except.error ⟨(destLastError dest env).1, (destLastError dest env).2⟩) := by
  simp only [Backup.executeStep, hb]

/-- The engine's step result code is ok, done, busy or locked unless the
environment was fatal. -/
theorem backup_step_nonfatal_code (h : BackupHandle) (n : Int) (env : StepEnv)
    (henv : ∀ c m, env ≠ StepEnv.fatal c m) :
    (sqlite3_backup_step h n env).2 = SQLITE_OK ∨
    (sqlite3_backup_step h n env).2 = SQLITE_DONE ∨
    (sqlite3_backup_step h n env).2 = SQLITE_BUSY ∨
    (sqlite3_backup_step h n env).2 = SQLITE_LOCKED := by
  cases env with
  | quiet =>
      simp only [sqlite3_backup_step]
      split_ifs <;> simp
  | busy => exact Or.inr (Or.inr (Or.inl rfl))
  | locked => exact Or.inr (Or.inr (Or.inr rfl))
  | fatal c m => exact absurd rfl (henv c m)

/-- The engine's step never changes the pointer value of the handle. -/
theorem backup_step_id (h : BackupHandle) (n : Int) (env : StepEnv) :
    (sqlite3_backup_step h n env).1.id = h.id := by
  cases env <;> simp [sqlite3_backup_step]

/-- A step that reports an error leaves the driver state unchanged. -/
theorem executeStep_error_eq (b : Backup) (dest : Database) (env : StepEnv)
    (n : Int) (ex : Exception)
    (hE : (b.executeStep dest env n).2 = Except.error ex) :
    (b.executeStep dest env n).1 = b := by
  cases hb : b.mpSQLiteBackup with
  | none => simp only [Backup.executeStep, hb]
  | some h =>
      rw [executeStep_eq b dest env n h hb] at hE ⊢
      cases env with
      | fatal c m =>
          split at hE
          · simp at hE
          · split
            · simp_all
            · obtain ⟨mp⟩ := b
              simp only [sqlite3_backup_step]
              simp only [Backup.mpSQLiteBackup] at hb
              rw [hb]
      | quiet =>
          have := backup_step_nonfatal_code h n StepEnv.quiet (by intro c m hcm; cases hcm)
          simp [this] at hE
      | busy =>
          have := backup_step_nonfatal_code h n StepEnv.busy (by intro c m hcm; cases hcm)
          simp [this] at hE
      | locked =>
          have := backup_step_nonfatal_code h n StepEnv.locked (by intro c m hcm; cases hcm)
          simp [this] at hE

/-- Every step keeps the driver live (a live handle is stored back in every
branch) and an initially null pointer stays null. -/
theorem executeStep_isSome (b : Backup) (dest : Database) (env : StepEnv)
    (n : Int) :
    (b.executeStep dest env n).1.mpSQLiteBackup.isSome =
      b.mpSQLiteBackup.isSome := by
  cases hb : b.mpSQLiteBackup with
  | none => simp only [Backup.executeStep, hb]
  | some h =>
      rw [executeStep_eq b dest env n h hb]
      split <;> simp [hb]

/-- A quiescent step never increases the remaining counter. -/
theorem executeStep_quiet_remNat_le (b : Backup) (dest : Database) (k : Int) :
    ((b.executeStep dest StepEnv.quiet k).1).remNat ≤ b.remNat := by
  cases hb : b.mpSQLiteBackup with
  | none => simp only [Backup.executeStep, hb]; exact le_refl _
  | some h =>
      rw [executeStep_eq b dest StepEnv.quiet k h hb]
      split <;>
        simp [Backup.remNat, hb, sqlite3_backup_step]

/-- A quiescent step with a positive page count strictly decreases a
positive remaining counter. -/
theorem executeStep_quiet_remNat_lt (b : Backup) (dest : Database) (k : Int)
    (hk : 0 < k) :
    ((b.executeStep dest StepEnv.quiet k).1).remNat ≤ b.remNat - 1 := by
  cases hb : b.mpSQLiteBackup with
  | none =>
      simp only [Backup.executeStep, hb, Backup.remNat]
      omega
  | some h =>
      have hneg : ¬ k < 0 := by omega
      have htn : 1 ≤ k.toNat := by omega
      have hrem : b.remNat = h.remaining := by simp [Backup.remNat, hb]
      have hL : (Backup.mk (some (sqlite3_backup_step h k StepEnv.quiet).1)).remNat
          = h.remaining - min k.toNat h.remaining := by
        simp [Backup.remNat, sqlite3_backup_step, hneg]
      rw [executeStep_eq b dest StepEnv.quiet k h hb]
      split <;>
        · show (Backup.mk (some (sqlite3_backup_step h k StepEnv.quiet).1)).remNat
              ≤ b.remNat - 1
          rw [hL, hrem]
          omega

/-- Folded quiescent steps never increase the remaining counter. -/
theorem stepSeq_remNat_le (dest : Database) (ks : List Int) :
    ∀ b : Backup, (b.stepSeq dest ks).remNat ≤ b.remNat := by
  induction ks with
  | nil => intro b; exact le_refl _
  | cons k ks ih =>
      intro b
      calc ((b.executeStep dest StepEnv.quiet k).1.stepSeq dest ks).remNat
          ≤ ((b.executeStep dest StepEnv.quiet k).1).remNat := ih _
        _ ≤ b.remNat := executeStep_quiet_remNat_le b dest k

/-- Each folded quiescent step with positive page counts removes at least
one remaining page (down to zero). -/
theorem stepSeq_remNat_le_sub (dest : Database) (ks : List Int) :
    ∀ b : Backup, (∀ k ∈ ks, 0 < k) →
      (b.stepSeq dest ks).remNat ≤ b.remNat - ks.length := by
  induction ks with
  | nil => intro b _; exact le_refl _
  | cons k ks ih =>
      intro b hpos
      have h1 : ((b.executeStep dest StepEnv.quiet k).1).remNat ≤ b.remNat - 1 :=
        executeStep_quiet_remNat_lt b dest k (hpos k (List.mem_cons_self k ks))
      have h2 := ih ((b.executeStep dest StepEnv.quiet k).1)
        (fun j hj => hpos j (List.mem_cons_of_mem k hj))
      have h3 : b.stepSeq dest (k :: ks)
          = ((b.executeStep dest StepEnv.quiet k).1).stepSeq dest ks := by
        simp [Backup.stepSeq]
      rw [h3]
      simp only [List.length_cons]
      omega

/-- Folded quiescent steps keep the driver live. -/
theorem stepSeq_isSome (dest : Database) (ks : List Int) :
    ∀ b : Backup, (b.stepSeq dest ks).mpSQLiteBackup.isSome =
      b.mpSQLiteBackup.isSome := by
  induction ks with
  | nil => intro b; rfl
  | cons k ks ih =>
      intro b
      simp only [Backup.stepSeq, List.foldl_cons] at *
      rw [ih, executeStep_isSome]

/-- A live driver with no remaining pages answers done to any quiescent
step. -/
theorem executeStep_done_of_remNat_zero (b : Backup) (dest : Database)
    (k : Int) (hlive : b.mpSQLiteBackup.isSome) (hrem : b.remNat = 0) :
    (b.executeStep dest StepEnv.quiet k).2 = Except.ok SQLITE_DONE := by
  cases hb : b.mpSQLiteBackup with
  | none => rw [hb] at hlive; simp at hlive
  | some h =>
      have hr : h.remaining = 0 := by
        simpa [Backup.remNat, hb] using hrem
      rw [executeStep_eq b dest StepEnv.quiet k h hb]
      have hstep : (sqlite3_backup_step h k StepEnv.quiet).2 = SQLITE_DONE := by
        simp [sqlite3_backup_step, hr]
      rw [hstep]
      simp [SQLITE_DONE, SQLITE_OK]

/-- The engine's quiescent step result code is ok or done. -/
theorem backup_step_quiet_code (h : BackupHandle) (n : Int) :
    (sqlite3_backup_step h n StepEnv.quiet).2 = SQLITE_OK ∨
    (sqlite3_backup_step h n StepEnv.quiet).2 = SQLITE_DONE := by
  simp only [sqlite3_backup_step]
  split_ifs <;> simp

/-- Any live driver answers done with zero pages left to any quiescent
full (`-1` pages) step. -/
theorem executeStep_all_quiet (b : Backup) (dest : Database) (h : BackupHandle)
    (hb : b.mpSQLiteBackup = some h) :
    (b.executeStep dest StepEnv.quiet (-1)).2 = Except.ok SQLITE_DONE ∧
    ((b.executeStep dest StepEnv.quiet (-1)).1).remainingPageCount = 0 := by
  have hstep1 : (sqlite3_backup_step h (-1) StepEnv.quiet).1.remaining = 0 := by
    simp [sqlite3_backup_step]
  have hstep2 : (sqlite3_backup_step h (-1) StepEnv.quiet).2 = SQLITE_DONE := by
    simp [sqlite3_backup_step]
  rw [executeStep_eq b dest StepEnv.quiet (-1) h hb, hstep2,
    if_pos (Or.inr (Or.inl rfl))]
  refine ⟨rfl, ?_⟩
  simp [Backup.remainingPageCount, sqlite3_backup_remaining, hstep1]

/-- Test fixture: an engine whose initialize entry point refuses to
produce a handle. -/
def engineRefusing : Engine := ⟨fun _ _ _ _ => none⟩

/-- Test fixture: an engine producing handle 7 over a three-page source. -/
def engineThreePages : Engine := ⟨fun _ _ _ _ => some (7, 3)⟩

/-- Test fixture: a destination connection. -/
def destFixture : Database := ⟨1, 14, "unable to open database file"⟩

/-- Test fixture: a source connection. -/
def srcFixture : Database := ⟨2, 0, "not an error"⟩

/-- C1: for every live Backup, executeStep returns the engine's step status
unchanged when it is ok, done, busy or locked, and raises a structured
error carrying the engine's code and message (as recorded on the
destination connection) exactly when the engine's step entry point returns
any other code; in particular a fatal code such as io_error, out_of_memory
or read_only is raised with that very code and the engine's message. -/
theorem executeStep_status_classification (b : Backup) (dest : Database)
    (env : StepEnv) (n : Int) (h : BackupHandle)
    (hb : b.mpSQLiteBackup = some h) :
    (((sqlite3_backup_step h n env).2 = SQLITE_OK ∨
      (sqlite3_backup_step h n env).2 = SQLITE_DONE ∨
      (sqlite3_backup_step h n env).2 = SQLITE_BUSY ∨
      (sqlite3_backup_step h n env).2 = SQLITE_LOCKED) →
        (b.executeStep dest env n).2 =
          Except.ok (sqlite3_backup_step h n env).2) ∧
    (¬ ((sqlite3_backup_step h n env).2 = SQLITE_OK ∨
      (sqlite3_backup_step h n env).2 = SQLITE_DONE ∨
      (sqlite3_backup_step h n env).2 = SQLITE_BUSY ∨
      (sqlite3_backup_step h n env).2 = SQLITE_LOCKED) →
        (b.executeStep dest env n).2 =
          Except.error ⟨(destLastError dest env).1, (destLastError dest env).2⟩) ∧
    (∀ c m, env = StepEnv.fatal c m →
      ¬ (c = SQLITE_OK ∨ c = SQLITE_DONE ∨ c = SQLITE_BUSY ∨ c = SQLITE_LOCKED) →
        (b.executeStep dest env n).2 = Except.error ⟨c, m⟩) := by
  refine ⟨?_, ?_, ?_⟩
  · intro hs
    rw [executeStep_eq b dest env n h hb, if_pos hs]
  · intro hs
    rw [executeStep_eq b dest env n h hb, if_neg hs]
  · rintro c m rfl hc
    rw [executeStep_eq b dest (StepEnv.fatal c m) n h hb, if_neg ?_]
    · rfl
    · simpa [sqlite3_backup_step] using hc

/-- Witness for C1: a concrete fatal io_error step raises the engine code
and message. -/
theorem executeStep_status_classification_witness :
    ((Backup.mk (some ⟨7, 3, 3⟩)).executeStep destFixture
        (StepEnv.fatal SQLITE_IOERR "disk I/O error") 1).2 =
      Except.error ⟨SQLITE_IOERR, "disk I/O error"⟩ :=
  (executeStep_status_classification ⟨some ⟨7, 3, 3⟩⟩ destFixture
      (StepEnv.fatal SQLITE_IOERR "disk I/O error") 1 ⟨7, 3, 3⟩ rfl).2.2
    SQLITE_IOERR "disk I/O error" rfl (by decide)

/-- C2: for each of the three constructor forms, a null engine handle makes
construction fail with an error read from the destination connection's
last-error fields (no Backup is observable: the result is the error alone),
and a non-null handle makes construction succeed storing that handle. -/
theorem construction_null_fails_nonnull_stores (e : Engine)
    (dest src : Database) (dn sn : String) :
    (e.backup_init dest.getHandle dn src.getHandle sn = none →
      Backup.init e dest dn src sn = Except.error ⟨dest.errcode, dest.errmsg⟩ ∧
      Backup.initString e dest dn src sn =
        Except.error ⟨dest.errcode, dest.errmsg⟩) ∧
    (∀ p t, e.backup_init dest.getHandle dn src.getHandle sn = some (p, t) →
      Backup.init e dest dn src sn = Except.ok ⟨some ⟨p, t, t⟩⟩ ∧
      Backup.initString e dest dn src sn = Except.ok ⟨some ⟨p, t, t⟩⟩) ∧
    (e.backup_init dest.getHandle "main" src.getHandle "main" = none →
      Backup.initMain e dest src = Except.error ⟨dest.errcode, dest.errmsg⟩) ∧
    (∀ p t, e.backup_init dest.getHandle "main" src.getHandle "main" = some (p, t) →
      Backup.initMain e dest src = Except.ok ⟨some ⟨p, t, t⟩⟩) := by
  refine ⟨?_, ?_, ?_, ?_⟩
  · intro h0
    exact ⟨by simp [Backup.init, h0], by simp [Backup.initString, h0]⟩
  · intro p t h0
    exact ⟨by simp [Backup.init, h0], by simp [Backup.initString, h0]⟩
  · intro h0
    simp [Backup.initMain, h0]
  · intro p t h0
    simp [Backup.initMain, h0]

/-- Witness for C2: a refusing engine fails construction with the
destination's last error; a successful engine stores the fresh handle. -/
theorem construction_null_fails_nonnull_stores_witness :
    Backup.init engineRefusing destFixture "main" srcFixture "main" =
      Except.error ⟨14, "unable to open database file"⟩ ∧
    Backup.init engineThreePages destFixture "main" srcFixture "main" =
      Except.ok ⟨some ⟨7, 3, 3⟩⟩ :=
  ⟨((construction_null_fails_nonnull_stores engineRefusing destFixture srcFixture
      "main" "main").1 rfl).1,
   ((construction_null_fails_nonnull_stores engineThreePages destFixture srcFixture
      "main" "main").2.1 7 3 rfl).1⟩

/-- C3: the destructor passes the stored handle to the engine's finalize
entry point and never raises, whatever the finalize return code; this holds
in particular for the state left behind by an executeStep that reported a
failure, whose still-live handle is released. -/
theorem destruct_finalizes_never_raises (b : Backup) (finalizeRet : Int)
    (dest : Database) (env : StepEnv) (n : Int) :
    ((b.destruct finalizeRet).finalizedHandle = b.mpSQLiteBackup ∧
      (b.destruct finalizeRet).raised = none) ∧
    (∀ ex, (b.executeStep dest env n).2 = Except.error ex →
      (((b.executeStep dest env n).1).destruct finalizeRet).finalizedHandle =
          b.mpSQLiteBackup ∧
      (((b.executeStep dest env n).1).destruct finalizeRet).raised = none) := by
  refine ⟨⟨rfl, rfl⟩, ?_⟩
  intro ex hE
  rw [executeStep_error_eq b dest env n ex hE]
  exact ⟨rfl, rfl⟩

/-- Witness for C3: after a concrete failed step, destruction still
finalizes the original handle and raises nothing. -/
theorem destruct_finalizes_never_raises_witness :
    (((Backup.mk (some ⟨7, 3, 3⟩)).executeStep destFixture
        (StepEnv.fatal SQLITE_IOERR "disk I/O error") 1).1.destruct
        SQLITE_IOERR).raised = none :=
  ((destruct_finalizes_never_raises ⟨some ⟨7, 3, 3⟩⟩ SQLITE_IOERR destFixture
      (StepEnv.fatal SQLITE_IOERR "disk I/O error") 1).2
    ⟨SQLITE_IOERR, "disk I/O error"⟩ rfl).2

/-- C4: when executeStep fails with a structured error, the driver state is
unchanged: it still stores the same non-null handle (the Backup still owns
it), so the destructor can release it; a failed step never releases or
nulls the handle. -/
theorem executeStep_failure_keeps_handle (b : Backup) (dest : Database)
    (env : StepEnv) (n : Int) (h : BackupHandle) (ex : Exception)
    (hb : b.mpSQLiteBackup = some h)
    (hE : (b.executeStep dest env n).2 = Except.error ex) :
    (b.executeStep dest env n).1 = b ∧
    ((b.executeStep dest env n).1).mpSQLiteBackup = some h := by
  have h1 := executeStep_error_eq b dest env n ex hE
  exact ⟨h1, by rw [h1, hb]⟩

/-- Witness for C4: a concrete out-of-memory step keeps the handle. -/
theorem executeStep_failure_keeps_handle_witness :
    ((Backup.mk (some ⟨7, 3, 3⟩)).executeStep destFixture
        (StepEnv.fatal SQLITE_NOMEM "out of memory") 2).1.mpSQLiteBackup =
      some ⟨7, 3, 3⟩ :=
  (executeStep_failure_keeps_handle ⟨some ⟨7, 3, 3⟩⟩ destFixture
      (StepEnv.fatal SQLITE_NOMEM "out of memory") 2 ⟨7, 3, 3⟩
      ⟨SQLITE_NOMEM, "out of memory"⟩ rfl rfl).2

/-- C6: the two-argument constructor behaves identically to the
four-argument constructor with both schema names set to "main": for every
engine and every pair of connections the same engine query is made and the
same result (stored handle or error) is produced. -/
theorem initMain_eq_init_main_main (e : Engine) (dest src : Database) :
    Backup.initMain e dest src = Backup.init e dest "main" src "main" := rfl

/-- C5: successful construction (any of the three forms) stores a non-null
handle in `mpSQLiteBackup`, the driver's only state; getHandle returns
exactly the stored pointer without transferring ownership; and every step
keeps the same non-null pointer value stored (the pure progress accessors
read through it without modifying it). -/
theorem handle_sole_state_invariants (e : Engine) (dest src : Database)
    (dn sn : String) (b : Backup) (h : BackupHandle) (env : StepEnv) (n : Int) :
    (∀ b0, Backup.init e dest dn src sn = Except.ok b0 →
      b0.mpSQLiteBackup.isSome) ∧
    (∀ b0, Backup.initString e dest dn src sn = Except.ok b0 →
      b0.mpSQLiteBackup.isSome) ∧
    (∀ b0, Backup.initMain e dest src = Except.ok b0 →
      b0.mpSQLiteBackup.isSome) ∧
    (b.getHandle = b.mpSQLiteBackup) ∧
    (b.mpSQLiteBackup = some h →
      Option.map BackupHandle.id ((b.executeStep dest env n).1).mpSQLiteBackup =
        some h.id) := by
  refine ⟨?_, ?_, ?_, rfl, ?_⟩
  · intro b0 h0
    cases hO : e.backup_init dest.getHandle dn src.getHandle sn with
    | none => simp [Backup.init, hO] at h0
    | some pt =>
        obtain ⟨p, t⟩ := pt
        simp [Backup.init, hO] at h0
        simp [← h0]
  · intro b0 h0
    cases hO : e.backup_init dest.getHandle dn src.getHandle sn with
    | none => simp [Backup.initString, hO] at h0
    | some pt =>
        obtain ⟨p, t⟩ := pt
        simp [Backup.initString, hO] at h0
        simp [← h0]
  · intro b0 h0
    cases hO : e.backup_init dest.getHandle "main" src.getHandle "main" with
    | none => simp [Backup.initMain, hO] at h0
    | some pt =>
        obtain ⟨p, t⟩ := pt
        simp [Backup.initMain, hO] at h0
        simp [← h0]
  · intro hb
    rw [executeStep_eq b dest env n h hb]
    split <;> simp [backup_step_id]

/-- Witness for C5: a concrete quiescent step keeps pointer value 7
stored. -/
theorem handle_sole_state_invariants_witness :
    Option.map BackupHandle.id (((Backup.mk (some ⟨7, 3, 3⟩)).executeStep
        destFixture StepEnv.quiet 2).1).mpSQLiteBackup = some 7 :=
  (handle_sole_state_invariants engineThreePages destFixture srcFixture
      "main" "main" ⟨some ⟨7, 3, 3⟩⟩ ⟨7, 3, 3⟩ StepEnv.quiet 2).2.2.2.2 rfl

/-- C7: under a quiescent source, remainingPageCount is non-increasing
across any sequence of positive-page steps; once the sequence is at least
as long as the initial remaining count the counter reaches zero, and the
next executeStep then returns the done status. -/
theorem remaining_monotone_and_terminates (dest : Database) (b : Backup)
    (h : BackupHandle) (hb : b.mpSQLiteBackup = some h)
    (ks : List Int) (hpos : ∀ k ∈ ks, 0 < k) :
    (∀ (b' : Backup) (k : Int), 0 < k →
      ((b'.executeStep dest StepEnv.quiet k).1).remainingPageCount ≤
        b'.remainingPageCount) ∧
    ((b.stepSeq dest ks).remainingPageCount ≤ b.remainingPageCount) ∧
    (h.remaining ≤ ks.length →
      (b.stepSeq dest ks).remainingPageCount = 0 ∧
      ∀ k : Int, ((b.stepSeq dest ks).executeStep dest StepEnv.quiet k).2 =
        Except.ok SQLITE_DONE) := by
  refine ⟨?_, ?_, ?_⟩
  · intro b' k _
    rw [remainingPageCount_eq_remNat, remainingPageCount_eq_remNat]
    exact_mod_cast executeStep_quiet_remNat_le b' dest k
  · rw [remainingPageCount_eq_remNat, remainingPageCount_eq_remNat]
    exact_mod_cast stepSeq_remNat_le dest ks b
  · intro hlen
    have hsub := stepSeq_remNat_le_sub dest ks b hpos
    have hbrem : b.remNat = h.remaining := by simp [Backup.remNat, hb]
    have hz : (b.stepSeq dest ks).remNat = 0 := by omega
    have hlive : (b.stepSeq dest ks).mpSQLiteBackup.isSome := by
      rw [stepSeq_isSome, hb]
      rfl
    refine ⟨?_, ?_⟩
    · rw [remainingPageCount_eq_remNat, hz]
      rfl
    · intro k
      exact executeStep_done_of_remNat_zero _ dest k hlive hz

/-- Witness for C7: two one-page steps drain a two-page source, after which
a further step answers done. -/
theorem remaining_monotone_and_terminates_witness :
    ((Backup.mk (some ⟨1, 2, 2⟩)).stepSeq destFixture [1, 1]).remainingPageCount
        = 0 ∧
    (((Backup.mk (some ⟨1, 2, 2⟩)).stepSeq destFixture [1, 1]).executeStep
        destFixture StepEnv.quiet 1).2 = Except.ok SQLITE_DONE := by
  have hF := (remaining_monotone_and_terminates destFixture ⟨some ⟨1, 2, 2⟩⟩
      ⟨1, 2, 2⟩ rfl [1, 1] (by decide)).2.2 (by decide)
  exact ⟨hF.1, hF.2 1⟩

/-- C8: on a freshly constructed Backup with a quiescent source, the first
executeStep(-1) returns the done status and leaves remainingPageCount at
zero. -/
theorem first_full_step_done (e : Engine) (dest src : Database)
    (dn sn : String) (b : Backup)
    (hc : Backup.init e dest dn src sn = Except.ok b) :
    (b.executeStep dest StepEnv.quiet (-1)).2 = Except.ok SQLITE_DONE ∧
    ((b.executeStep dest StepEnv.quiet (-1)).1).remainingPageCount = 0 := by
  have hlive : ∃ h0, b.mpSQLiteBackup = some h0 := by
    cases hO : e.backup_init dest.getHandle dn src.getHandle sn with
    | none => simp [Backup.init, hO] at hc
    | some pt =>
        obtain ⟨p, t⟩ := pt
        simp [Backup.init, hO] at hc
        exact ⟨⟨p, t, t⟩, by simp [← hc]⟩
  obtain ⟨h0, hb⟩ := hlive
  exact executeStep_all_quiet b dest h0 hb

/-- Witness for C8: a fresh three-page backup finishes in one full step. -/
theorem first_full_step_done_witness :
    ((Backup.mk (some ⟨7, 3, 3⟩)).executeStep destFixture StepEnv.quiet
        (-1)).2 = Except.ok SQLITE_DONE :=
  (first_full_step_done engineThreePages destFixture srcFixture "main" "main"
      ⟨some ⟨7, 3, 3⟩⟩ rfl).1

/-- C9: executeStep(0) is a progress no-op: under every engine environment
it leaves remainingPageCount unchanged, and a quiescent call does not fail,
returning a success status (ok, or done when nothing remains). -/
theorem executeStep_zero_noop (b : Backup) (dest : Database)
    (h : BackupHandle) (hb : b.mpSQLiteBackup = some h) :
    (∀ env : StepEnv, ((b.executeStep dest env 0).1).remainingPageCount =
      b.remainingPageCount) ∧
    ((b.executeStep dest StepEnv.quiet 0).2 = Except.ok SQLITE_OK ∨
      (b.executeStep dest StepEnv.quiet 0).2 = Except.ok SQLITE_DONE) := by
  constructor
  · intro env
    have hs : (sqlite3_backup_step h 0 env).1.remaining = h.remaining := by
      cases env <;> simp [sqlite3_backup_step]
    rw [executeStep_eq b dest env 0 h hb]
    split <;>
      simp [Backup.remainingPageCount, sqlite3_backup_remaining, hs, hb]
  · have hq := backup_step_quiet_code h 0
    have hsucc : (sqlite3_backup_step h 0 StepEnv.quiet).2 = SQLITE_OK ∨
        (sqlite3_backup_step h 0 StepEnv.quiet).2 = SQLITE_DONE ∨
        (sqlite3_backup_step h 0 StepEnv.quiet).2 = SQLITE_BUSY ∨
        (sqlite3_backup_step h 0 StepEnv.quiet).2 = SQLITE_LOCKED := by
      rcases hq with h1 | h1
      · exact Or.inl h1
      · exact Or.inr (Or.inl h1)
    rw [executeStep_eq b dest StepEnv.quiet 0 h hb, if_pos hsucc]
    rcases hq with h1 | h1
    · exact Or.inl (by rw [h1])
    · exact Or.inr (by rw [h1])

/-- Witness for C9: a zero-page step on a three-page backup keeps the
remaining count. -/
theorem executeStep_zero_noop_witness :
    (((Backup.mk (some ⟨7, 3, 3⟩)).executeStep destFixture StepEnv.quiet
        0).1).remainingPageCount =
      (Backup.mk (some ⟨7, 3, 3⟩)).remainingPageCount :=
  (executeStep_zero_noop ⟨some ⟨7, 3, 3⟩⟩ destFixture ⟨7, 3, 3⟩ rfl).1
    StepEnv.quiet

/-- C10: calling executeStep with no page-count argument is the very call
executeStep(-1): the parameter aNumPage defaults to -1 (Backup.h:118),
requesting the copy of all remaining source pages. -/
theorem executeStep_default_is_all_pages (b : Backup) (dest : Database)
    (env : StepEnv) :
    b.executeStep dest env = b.executeStep dest env (-1) := rfl

end SQLiteCpp
